import Mathlib

/-
  Verification of the mkxp-z streaming audio driver (src/src/audio/alstream.cpp).

  Shallow embedding: the ALStream state machine and its producer thread are
  translated into pure Lean functions over an explicit stream record.  Hardware
  (OpenAL) interaction is represented by
    - a snapshot field alSrcState for the value AL getState would report,
    - a command log sinkCmds recording the calls issued to the AL source,
    - a seconds-offset snapshot secOffset for AL getSecOffset.
  Real numbers (C double / float) are embedded as rationals; the 64-bit frame
  counter procFrames as an integer with explicit truncation where C++ converts
  a double to an integer.
-/

/- ALStream::State (alstream.h): Closed, Stopped, Playing, Paused. -/
inductive StreamState
  | Closed
  | Stopped
  | Playing
  | Paused
  deriving DecidableEq

/- OpenAL source states as reported by AL::Source::getState. -/
inductive ALSourceState
  | INITIAL
  | PLAYING
  | PAUSED
  | STOPPED
  deriving DecidableEq

/- Commands a stream issues against its AL source (the sink). -/
inductive SinkCmd
  | play
  | pause
  | stop
  | clearQueue
  deriving DecidableEq

/- The per-source data the driver reads from an ALDataSource. -/
structure SourceInfo where
  sampleRate : Nat
  loopStartFrames : Int
  deriving DecidableEq

/- The ALStream object state (fields of class ALStream, alstream.cpp).
   source is an Option: none models the null pointer / destroyed source
   (ALStream::closeSource deletes the owned object).
   debugLog counts diagnostics written via Debug(). -/
structure ALStream where
  state : StreamState
  source : Option SourceInfo
  preemptPause : Bool
  startOffset : ℚ
  procFrames : ℤ
  lastBuf : Nat
  alSrcState : ALSourceState
  secOffset : ℚ
  streamInited : Bool
  sourceExhausted : Bool
  threadTermReq : Bool
  needsRewind : Bool
  thread : Bool
  sinkCmds : List SinkCmd
  debugLog : Nat
  deriving DecidableEq

/- Truncation toward zero, the C++ conversion of a double to an integer
   (procFrames = offset * source->sampleRate(), alstream.cpp line 303). -/
def ratTrunc (q : ℚ) : ℤ := Int.tdiv q.num q.den

namespace ALStream

/- source->sampleRate() on the held source (callers guard against null). -/
def sampleRate (s : ALStream) : Nat :=
  match s.source with
  | some si => si.sampleRate
  | none => 0

/- ALStream::pauseStream (lines 309-319): under pauseMut, if the AL source is
   not PLAYING record a preemptive pause, otherwise pause the AL source. -/
def pauseStream (s : ALStream) : ALStream :=
  if s.alSrcState ≠ ALSourceState.PLAYING then
    { s with preemptPause := true }
  else
    { s with sinkCmds := s.sinkCmds ++ [SinkCmd.pause],
             alSrcState := ALSourceState.PAUSED }

/- ALStream::resumeStream (lines 321-331): under pauseMut, a pending
   preemptive pause is cleared instead of starting the AL source. -/
def resumeStream (s : ALStream) : ALStream :=
  if s.preemptPause = true then
    { s with preemptPause := false }
  else
    { s with sinkCmds := s.sinkCmds ++ [SinkCmd.play],
             alSrcState := ALSourceState.PLAYING }

/- ALStream::stopStream (lines 274-291): request thread termination, join the
   producer thread if present (setting needsRewind), stop the AL source only
   after the join, and zero procFrames. -/
def stopStream (s : ALStream) : ALStream :=
  let s1 := { s with threadTermReq := true }
  let s2 := if s1.thread then { s1 with thread := false, needsRewind := true } else s1
  let s3 := { s2 with sinkCmds := s2.sinkCmds ++ [SinkCmd.stop],
                      alSrcState := ALSourceState.STOPPED }
  { s3 with procFrames := 0 }

/- ALStream::startStream (lines 293-307): clear the AL queue, reset the
   pause/term flags, record startOffset, preset procFrames, spawn the
   producer thread. -/
def startStream (s : ALStream) (offset : ℚ) : ALStream :=
  let s1 := { s with sinkCmds := s.sinkCmds ++ [SinkCmd.clearQueue] }
  let s2 := { s1 with preemptPause := false, streamInited := false,
                      sourceExhausted := false, threadTermReq := false }
  { s2 with startOffset := offset,
            procFrames := ratTrunc (offset * (s.sampleRate : ℚ)),
            thread := true }

/- ALStream::checkStopped (lines 333-358): self-healing Playing -> Stopped
   transition once the producer has initialized, the source is exhausted and
   the AL source is no longer playing. -/
def checkStopped (s : ALStream) : ALStream :=
  if s.state ≠ StreamState.Playing then s
  else if s.streamInited = false then s
  else if s.sourceExhausted = false then s
  else if s.alSrcState = ALSourceState.PLAYING then s
  else { s.stopStream with state := StreamState.Stopped }

/- ALStream::play (lines 115-135). -/
def play (s : ALStream) (offset : ℚ) : ALStream :=
  if s.source.isNone then s
  else
    let s1 := s.checkStopped
    match s1.state with
    | StreamState.Closed => s1
    | StreamState.Playing => s1
    | StreamState.Stopped => { s1.startStream offset with state := StreamState.Playing }
    | StreamState.Paused => { s1.resumeStream with state := StreamState.Playing }

/- ALStream::pause (lines 137-152). -/
def pause (s : ALStream) : ALStream :=
  let s1 := s.checkStopped
  match s1.state with
  | StreamState.Closed => s1
  | StreamState.Stopped => s1
  | StreamState.Paused => s1
  | StreamState.Playing => { s1.pauseStream with state := StreamState.Paused }

/- ALStream::stop (lines 98-113). -/
def stop (s : ALStream) : ALStream :=
  let s1 := s.checkStopped
  match s1.state with
  | StreamState.Closed => s1
  | StreamState.Stopped => s1
  | StreamState.Playing => { s1.stopStream with state := StreamState.Stopped }
  | StreamState.Paused => { s1.stopStream with state := StreamState.Stopped }

/- ALStream::closeSource (lines 187-190): delete source.  The embedding drops
   the owned object; the stream no longer holds a live source. -/
def closeSource (s : ALStream) : ALStream := { s with source := none }

/- ALStream::close (lines 74-89), with the C switch fallthrough spelled out:
   Playing/Paused run stopStream then fall into the Stopped case, which
   destroys the source and sets Closed; Closed returns at once. -/
def close (s : ALStream) : ALStream :=
  let s1 := s.checkStopped
  match s1.state with
  | StreamState.Playing => { s1.stopStream.closeSource with state := StreamState.Closed }
  | StreamState.Paused => { s1.stopStream.closeSource with state := StreamState.Closed }
  | StreamState.Stopped => { s1.closeSource with state := StreamState.Closed }
  | StreamState.Closed => s1

/- ALStream::queryOffset (lines 176-185). -/
def queryOffset (s : ALStream) : ℚ :=
  if s.state = StreamState.Closed ∨ s.source = none then 0
  else (s.procFrames : ℚ) / (s.sampleRate : ℚ) + s.secOffset

end ALStream

/- Exception kinds distinguished by ALStream::openSource (lines 242-257):
   Exception::NoFileError versus every other exception type. -/
inductive ExnType
  | NoFileError
  | PHYSFSError
  | OtherError
  deriving DecidableEq

/-- Modelled from the spec: FileSystem::openRead (filesystem.cpp is not under
src/).  The filesystem resolves the name and runs the handler: it throws
NoFileError when no file matches, throws another exception kind on an
I/O-level failure on a found file, and otherwise returns normally after the
handler ran, leaving in the handler whatever source the decoder setup
produced (absent on a format-level decoder error, whose message the handler
captured). -/
inductive FSOutcome
  | throwErr (t : ExnType)
  | ok (handlerSource : Option SourceInfo)

namespace ALStream

/- ALStream::openSource (lines 242-272): on a NoFileError the stream is left
   untouched and the error re-raised; on any other exception the stream is
   closed first and the error re-raised; otherwise the previous stream is
   closed, a diagnostic is logged when the handler produced no source, the
   handler's source is installed and needsRewind cleared. -/
def openSource (s : ALStream) (fso : FSOutcome) : Except (ExnType × ALStream) ALStream :=
  match fso with
  | FSOutcome.throwErr t =>
      if t ≠ ExnType.NoFileError then Except.error (t, s.close)
      else Except.error (t, s)
  | FSOutcome.ok hsrc =>
      let s1 := s.close
      let s2 := if hsrc.isNone then { s1 with debugLog := s1.debugLog + 1 } else s1
      Except.ok { s2 with source := hsrc, needsRewind := false }

/- ALStream::open (lines 91-96): openSource, then state = Stopped.  An
   exception from openSource propagates to the caller. -/
def openOp (s : ALStream) (fso : FSOutcome) : Except (ExnType × ALStream) ALStream :=
  match s.openSource fso with
  | Except.error e => Except.error e
  | Except.ok s1 => Except.ok { s1 with state := StreamState.Stopped }

end ALStream

/-
  Producer thread model (ALStream::streamData, lines 361-477).

  The producer runs against hardware and a decoder whose behavior is not
  determined by the stream state alone, so the run is parameterized by an
  oracle environment: each read of a flag, each fillBuffer result, each
  unqueueBuffer result, each processed-buffer count and each AL state query
  takes the next value of the corresponding oracle at the current read index.
  Every real execution corresponds to some environment.  The run returns the
  sequence of externally visible events it performed.
-/

/- ALDataSource::Status (aldatasource.h). -/
inductive SourceStatus
  | NoError
  | EndOfStream
  | WrapAround
  | Error
  deriving DecidableEq

/- Oracle environment for one producer run. -/
structure ProdEnv where
  termAt : Nat → Bool
  fillAt : Nat → SourceStatus
  unqAt : Nat → Nat
  procAt : Nat → Nat
  alStateAt : Nat → ALSourceState

/- Per-buffer attributes reported by AL::Buffer::getBits / getSize /
   getChannels. -/
structure BufAttrs where
  bits : Nat
  size : Nat
  chan : Nat
  deriving DecidableEq

/- Fixed data of the stream as the producer sees it: the buffer ring
   alBuf[0..STREAM_BUFS-1] (nonzero AL names), per-buffer attributes, and
   source->loopStartFrames(). -/
structure ProdModel where
  bufs : List Nat
  attrs : Nat → BufAttrs
  loopStartFrames : Int

/- Producer-local mutable state: the shared read index and the fields of
   ALStream the producer writes (procFrames, lastBuf, and the
   streamInited / sourceExhausted flags). -/
structure ProdState where
  t : Nat
  procFrames : Int
  lastBuf : Nat
  exhausted : Bool
  inited : Bool
  deriving DecidableEq

def readTerm (env : ProdEnv) (st : ProdState) : Bool × ProdState :=
  (env.termAt st.t, { st with t := st.t + 1 })

def readFill (env : ProdEnv) (st : ProdState) : SourceStatus × ProdState :=
  (env.fillAt st.t, { st with t := st.t + 1 })

def readUnq (env : ProdEnv) (st : ProdState) : Nat × ProdState :=
  (env.unqAt st.t, { st with t := st.t + 1 })

def readProc (env : ProdEnv) (st : ProdState) : Nat × ProdState :=
  (env.procAt st.t, { st with t := st.t + 1 })

def readALState (env : ProdEnv) (st : ProdState) : ALSourceState × ProdState :=
  (env.alStateAt st.t, { st with t := st.t + 1 })

/- Externally visible producer events. -/
inductive PEvent
  | seek (off : ℚ)
  | fill (buf : Nat) (status : SourceStatus)
  | queue (buf : Nat)
  | resume
  | setInited
  | setExhausted
  | sinkPlay
  deriving DecidableEq

/- How phase 1 (the initial fill loop) ended: an early return on the term
   request, an early return on a decoder Error, or falling through to the
   refill loop. -/
inductive P1Out
  | termRet
  | errorRet
  | fall
  deriving DecidableEq

/- Loop accounting for one successfully unqueued buffer (lines 424-441):
   the buffer that was marked lastBuf resets procFrames to the loop start
   and clears the mark; any other buffer contributes
   (size / (bits / 8)) / channels frames, guarded against zero bits or
   channels. -/
def unqueueAccount (md : ProdModel) (buf : Nat) (st : ProdState) : ProdState :=
  if buf = st.lastBuf then
    { st with procFrames := md.loopStartFrames, lastBuf := 0 }
  else
    let bits := (md.attrs buf).bits
    let size := (md.attrs buf).size
    let chan := (md.attrs buf).chan
    if bits ≠ 0 ∧ chan ≠ 0 then
      { st with procFrames := st.procFrames + (((size / (bits / 8)) / chan : Nat) : Int) }
    else st

/- Phase 1 (lines 373-403): for each ring buffer, check the term request,
   fill the buffer, return on Error, queue it, on the first buffer call
   resumeStream and set streamInited, check the term request again, and on
   EndOfStream set sourceExhausted and leave the loop early. -/
def fillLoop (env : ProdEnv) : List Nat → Bool → ProdState → List PEvent × ProdState × P1Out
  | [], _, st => ([], st, P1Out.fall)
  | buf :: rest, firstBuffer, st =>
    let r1 := readTerm env st
    if r1.1 then ([], r1.2, P1Out.termRet) else
    let r2 := readFill env r1.2
    let status := r2.1
    if status = SourceStatus.Error then
      ([PEvent.fill buf status], r2.2, P1Out.errorRet)
    else
      let more := if firstBuffer then [PEvent.resume, PEvent.setInited] else []
      let st3 := if firstBuffer then { r2.2 with inited := true } else r2.2
      let r3 := readTerm env st3
      if r3.1 then
        (PEvent.fill buf status :: PEvent.queue buf :: more, r3.2, P1Out.termRet)
      else if status = SourceStatus.EndOfStream then
        (PEvent.fill buf status :: PEvent.queue buf :: more ++ [PEvent.setExhausted],
         { r3.2 with exhausted := true }, P1Out.fall)
      else
        let r4 := fillLoop env rest false r3.2
        (PEvent.fill buf status :: PEvent.queue buf :: more ++ r4.1, r4.2.1, r4.2.2)

/- The inner refill loop of phase 2 (lines 413-470), iterated procBufs times:
   check the term request, unqueue a buffer (a null name ends the pass), run
   the loop accounting, skip refilling once the source is exhausted, refill
   (a decoder Error sets sourceExhausted and exits the thread), queue the
   buffer, restart the AL source on a transient STOPPED (underrun), mark a
   WrapAround buffer as lastBuf, and record EndOfStream in sourceExhausted.
   The Bool result is true when the thread returns entirely (Error). -/
def refillLoop (env : ProdEnv) (md : ProdModel) : Nat → ProdState → List PEvent × ProdState × Bool
  | 0, st => ([], st, false)
  | n + 1, st =>
    let r1 := readTerm env st
    if r1.1 then ([], r1.2, false) else
    let r2 := readUnq env r1.2
    let buf := r2.1
    if buf = 0 then ([], r2.2, false) else
    let st2 := unqueueAccount md buf r2.2
    if st2.exhausted then refillLoop env md n st2
    else
      let r3 := readFill env st2
      let status := r3.1
      if status = SourceStatus.Error then
        ([PEvent.fill buf status, PEvent.setExhausted], { r3.2 with exhausted := true }, true)
      else
        let r4 := readALState env r3.2
        let evPlay := if r4.1 = ALSourceState.STOPPED then [PEvent.sinkPlay] else []
        let st4 := if status = SourceStatus.WrapAround then { r4.2 with lastBuf := buf } else r4.2
        let exEv := if status = SourceStatus.EndOfStream then [PEvent.setExhausted] else []
        let st5 := if status = SourceStatus.EndOfStream then { st4 with exhausted := true } else st4
        let r5 := refillLoop env md n st5
        (PEvent.fill buf status :: PEvent.queue buf :: evPlay ++ exEv ++ r5.1, r5.2.1, r5.2.2)

/- The outer phase-2 loop (lines 407-476): pass the secondary sync point
   (no producer-visible effect), read the processed-buffer count, run the
   inner loop, then exit on the term request or sleep and repeat.  The
   unbounded while (true) is run for an arbitrary finite number of
   iterations given by fuel; every finite prefix of a real run is covered by
   some fuel. -/
def refillOuter (env : ProdEnv) (md : ProdModel) : Nat → ProdState → List PEvent × ProdState
  | 0, st => ([], st)
  | fuel + 1, st =>
    let r1 := readProc env st
    let r2 := refillLoop env md r1.1 r1.2
    if r2.2.2 then (r2.1, r2.2.1) else
    let r3 := readTerm env r2.2.1
    if r3.1 then (r2.1, r3.2) else
    let r4 := refillOuter env md fuel r3.2
    (r2.1 ++ r4.1, r4.2)

/- ALStream::streamData (lines 361-477): check the term request, seek the
   source to startOffset (the needsRewind guard is commented out in the
   source, so the seek is unconditional), run phase 1, and enter phase 2
   only when phase 1 fell through.  The P1Out component reports how phase 1
   ended. -/
def streamData (env : ProdEnv) (md : ProdModel) (startOffset : ℚ) (fuel : Nat)
    (st : ProdState) : List PEvent × ProdState × P1Out :=
  let r1 := readTerm env st
  if r1.1 then ([], r1.2, P1Out.termRet) else
  let r2 := fillLoop env md.bufs true r1.2
  match r2.2.2 with
  | P1Out.fall =>
      let r3 := refillOuter env md fuel r2.2.1
      (PEvent.seek startOffset :: r2.1 ++ r3.1, r3.2, P1Out.fall)
  | P1Out.termRet => (PEvent.seek startOffset :: r2.1, r2.2.1, P1Out.termRet)
  | P1Out.errorRet => (PEvent.seek startOffset :: r2.1, r2.2.1, P1Out.errorRet)

/- The status of the most recent fill event of a trace, seeded by prev. -/
def lastFill : Option SourceStatus → List PEvent → Option SourceStatus
  | prev, [] => prev
  | _, PEvent.fill _ s :: rest => lastFill (some s) rest
  | prev, _ :: rest => lastFill prev rest

/- Checks that every setExhausted event in the trace follows a fill whose
   status was Error or EndOfStream with no other fill in between; prev seeds
   the status of the fill most recently seen before the trace. -/
def exhaustAfterFill : Option SourceStatus → List PEvent → Bool
  | _, [] => true
  | _, PEvent.fill _ s :: rest => exhaustAfterFill (some s) rest
  | prev, PEvent.setExhausted :: rest =>
      (prev = some SourceStatus.Error || prev = some SourceStatus.EndOfStream) &&
        exhaustAfterFill prev rest
  | prev, _ :: rest => exhaustAfterFill prev rest

/- A concrete stream value used by counterexamples and witnesses. -/
def sampleStream : ALStream :=
  { state := StreamState.Stopped
    source := some { sampleRate := 44100, loopStartFrames := 0 }
    preemptPause := false
    startOffset := 0
    procFrames := 0
    lastBuf := 0
    alSrcState := ALSourceState.INITIAL
    secOffset := 0
    streamInited := false
    sourceExhausted := false
    threadTermReq := false
    needsRewind := false
    thread := false
    sinkCmds := []
    debugLog := 0 }

/- A Playing stream whose producer has initialized and exhausted the source
   while the sink already drained: the checkStopped transition fires. -/
def drainedStream : ALStream :=
  { sampleStream with state := StreamState.Playing, streamInited := true,
                      sourceExhausted := true, alSrcState := ALSourceState.STOPPED }

/- A Playing stream that has initialized but not exhausted its source: a
   mere underrun, which checkStopped must ignore. -/
def underrunStream : ALStream :=
  { sampleStream with state := StreamState.Playing, streamInited := true }

/- A Paused stream holding a position, used to check that play from Paused
   resumes rather than seeks. -/
def pausedStream : ALStream :=
  { sampleStream with state := StreamState.Paused, alSrcState := ALSourceState.PAUSED,
                      startOffset := 3/2, procFrames := 66150, thread := true }

/- First four bytes of an Ogg container, the signature "OggS". -/
def oggSig : List UInt8 := [0x4F, 0x67, 0x67, 0x53]

/- First four bytes of a standard MIDI file, the signature "MThd". -/
def midiSig : List UInt8 := [0x4D, 0x54, 0x68, 0x64]

/- Observable outcome of one ALStreamOpenHandler::tryRead call: the returned
   Bool, the handler's source and errorMsg fields, whether the shared MIDI
   state was initialized, the bytes consumed by the signature read, and the
   byte-stream position at which the chosen constructor is invoked. -/
structure TryReadResult where
  retval : Bool
  source : Option SourceInfo
  errorMsg : String
  midiInited : Bool
  sigRead : List UInt8
  posBeforeCtor : Nat
  deriving DecidableEq

/- ALStreamOpenHandler::tryRead (lines 202-239): read up to four signature
   bytes, seek back to position 0, then pick the source constructor: the
   Ogg/Vorbis one on "OggS"; on "MThd" initialize the shared MIDI state and,
   when a synthesizer is available (HAVE_FLUID), the MIDI one, otherwise
   fall through to the generic SDL_sound one, which also handles every other
   signature and takes the extension hint and the fixed STREAM_BUF_SIZE.
   Constructors are oracle parameters: ok is a constructed source, error is
   a thrown Exception whose message the handler captures (every constructor
   closes the byte stream itself on its failure path). -/
def tryRead (bytes : List UInt8) (ext : String) (haveFluid : Bool) (streamBufSize : Nat)
    (vorbisCtor midiCtor : Except String SourceInfo)
    (sdlCtor : String → Nat → Except String SourceInfo) : TryReadResult :=
  let sig := bytes.take 4
  if sig = oggSig then
    match vorbisCtor with
    | Except.ok src =>
        { retval := true, source := some src, errorMsg := "", midiInited := false,
          sigRead := sig, posBeforeCtor := 0 }
    | Except.error m =>
        { retval := false, source := none, errorMsg := m, midiInited := false,
          sigRead := sig, posBeforeCtor := 0 }
  else if sig = midiSig then
    if haveFluid then
      match midiCtor with
      | Except.ok src =>
          { retval := true, source := some src, errorMsg := "", midiInited := true,
            sigRead := sig, posBeforeCtor := 0 }
      | Except.error m =>
          { retval := false, source := none, errorMsg := m, midiInited := true,
            sigRead := sig, posBeforeCtor := 0 }
    else
      match sdlCtor ext streamBufSize with
      | Except.ok src =>
          { retval := true, source := some src, errorMsg := "", midiInited := true,
            sigRead := sig, posBeforeCtor := 0 }
      | Except.error m =>
          { retval := false, source := none, errorMsg := m, midiInited := true,
            sigRead := sig, posBeforeCtor := 0 }
  else
    match sdlCtor ext streamBufSize with
    | Except.ok src =>
        { retval := true, source := some src, errorMsg := "", midiInited := false,
          sigRead := sig, posBeforeCtor := 0 }
    | Except.error m =>
        { retval := false, source := none, errorMsg := m, midiInited := false,
          sigRead := sig, posBeforeCtor := 0 }

/- The handler outcome dictated by one constructor call: on success the
   constructed source is installed and tryRead returns true; on a thrown
   Exception the message is captured, no source is produced, and tryRead
   returns false. -/
def followsCtor (r : TryReadResult) (c : Except String SourceInfo) : Prop :=
  match c with
  | Except.ok src => r.retval = true ∧ r.source = some src ∧ r.errorMsg = ""
  | Except.error m => r.retval = false ∧ r.source = none ∧ r.errorMsg = m

/- Concrete constructor outcomes used by witnesses. -/
def okVorbis : Except String SourceInfo :=
  Except.ok { sampleRate := 44100, loopStartFrames := 0 }

def badMidi : Except String SourceInfo := Except.error "synth failed"

def sdlFallback : String → Nat → Except String SourceInfo :=
  fun _ _ => Except.ok { sampleRate := 22050, loopStartFrames := 0 }

/- Concrete producer-side values used by witnesses. -/
def sampleAttrs : Nat → BufAttrs := fun _ => { bits := 16, size := 3528, chan := 2 }

def sampleProdModel : ProdModel :=
  { bufs := [1, 2, 3], attrs := sampleAttrs, loopStartFrames := 5 }

def zeroBitsModel : ProdModel :=
  { bufs := [1, 2, 3], attrs := fun _ => { bits := 0, size := 3528, chan := 2 },
    loopStartFrames := 5 }

def sampleProdState : ProdState :=
  { t := 0, procFrames := 1000, lastBuf := 7, exhausted := false, inited := false }

/- True when the last event of a trace is a fill that returned Error: the
   shape of a producer run that ended on a phase-1 decoder error. -/
def endsWithErrorFill (tr : List PEvent) : Bool :=
  match tr.getLast? with
  | some (PEvent.fill _ SourceStatus.Error) => true
  | _ => false

/- An environment whose decoder fails on the very first fill and that never
   requests termination. -/
def errorEnv : ProdEnv :=
  { termAt := fun _ => false
    fillAt := fun _ => SourceStatus.Error
    unqAt := fun _ => 0
    procAt := fun _ => 0
    alStateAt := fun _ => ALSourceState.INITIAL }

/-
  Helper lemmas shared by the claim theorems.
-/

theorem checkStopped_of_ne_playing (s : ALStream) (h : s.state ≠ StreamState.Playing) :
    s.checkStopped = s := by
  simp [ALStream.checkStopped, h]

theorem checkStopped_cases (s : ALStream) :
    s.checkStopped = s ∨
      (s.state = StreamState.Playing ∧
       s.checkStopped = { s.stopStream with state := StreamState.Stopped }) := by
  rw [ALStream.checkStopped]
  split
  · exact Or.inl rfl
  · split
    · exact Or.inl rfl
    · split
      · exact Or.inl rfl
      · split
        · exact Or.inl rfl
        · rename_i h1 _ _ _
          exact Or.inr ⟨not_not.mp h1, rfl⟩

theorem checkStopped_of_state_ne_stopped (s : ALStream)
    (h : s.checkStopped.state ≠ StreamState.Stopped) : s.checkStopped = s := by
  rcases checkStopped_cases s with h1 | ⟨_, h2⟩
  · exact h1
  · rw [h2] at h
    simp at h

theorem stopStream_source (s : ALStream) : s.stopStream.source = s.source := by
  simp only [ALStream.stopStream]
  split <;> rfl

theorem checkStopped_source (s : ALStream) : s.checkStopped.source = s.source := by
  rcases checkStopped_cases s with h1 | ⟨_, h2⟩
  · rw [h1]
  · rw [h2]
    exact stopStream_source s

theorem sampleRate_congr (s1 s2 : ALStream) (h : s1.source = s2.source) :
    s1.sampleRate = s2.sampleRate := by
  simp [ALStream.sampleRate, h]

/-
  Claim theorems.
-/

/-- C2: pauseStream sets preemptPause and leaves the sink untouched whenever
the sink state is not PLAYING, and otherwise issues a sink pause;
resumeStream clears a pending preemptPause without touching the sink, and
otherwise issues a sink play.  Consequently a pause issued while the sink
has not yet started wins: the producer's subsequent resumeStream only clears
the flag and never starts playback. -/
theorem claim_C2 (s : ALStream) :
    (s.alSrcState ≠ ALSourceState.PLAYING →
       s.pauseStream = { s with preemptPause := true }) ∧
    (s.alSrcState = ALSourceState.PLAYING →
       s.pauseStream = { s with sinkCmds := s.sinkCmds ++ [SinkCmd.pause],
                                alSrcState := ALSourceState.PAUSED }) ∧
    (s.preemptPause = true → s.resumeStream = { s with preemptPause := false }) ∧
    (s.preemptPause = false →
       s.resumeStream = { s with sinkCmds := s.sinkCmds ++ [SinkCmd.play],
                                 alSrcState := ALSourceState.PLAYING }) ∧
    (s.alSrcState ≠ ALSourceState.PLAYING →
       s.pauseStream.resumeStream = { s with preemptPause := false }) := by
  refine ⟨?_, ?_, ?_, ?_, ?_⟩ <;> intro h <;>
    simp [ALStream.pauseStream, ALStream.resumeStream, h]

/-- C2 witness: the theorem applied to a concrete stream whose sink is
INITIAL (not PLAYING) and to one whose sink is PLAYING. -/
theorem claim_C2_witness :
    sampleStream.pauseStream = { sampleStream with preemptPause := true } ∧
    ALStream.pauseStream { sampleStream with alSrcState := ALSourceState.PLAYING } =
      { sampleStream with alSrcState := ALSourceState.PAUSED,
                          sinkCmds := [SinkCmd.pause] } ∧
    ALStream.resumeStream { sampleStream with preemptPause := true } =
      { sampleStream with preemptPause := false } ∧
    sampleStream.resumeStream =
      { sampleStream with sinkCmds := [SinkCmd.play],
                          alSrcState := ALSourceState.PLAYING } ∧
    sampleStream.pauseStream.resumeStream = { sampleStream with preemptPause := false } := by
  refine ⟨(claim_C2 sampleStream).1 (by decide),
          ?_,
          (claim_C2 { sampleStream with preemptPause := true }).2.2.1 rfl,
          (claim_C2 sampleStream).2.2.2.1 rfl,
          (claim_C2 sampleStream).2.2.2.2 (by decide)⟩
  exact (claim_C2 { sampleStream with alSrcState := ALSourceState.PLAYING }).2.1 rfl

/-- C3: checkStopped performs the Playing to Stopped transition, running the
stop protocol, exactly when the state is Playing, streamInited and
sourceExhausted are set, and the sink does not report PLAYING; in every
other case it leaves the stream unchanged. -/
theorem claim_C3 (s : ALStream) :
    ((s.checkStopped.state = StreamState.Stopped ∧ s.state = StreamState.Playing) ↔
       (s.state = StreamState.Playing ∧ s.streamInited = true ∧ s.sourceExhausted = true ∧
        s.alSrcState ≠ ALSourceState.PLAYING)) ∧
    ((s.state = StreamState.Playing ∧ s.streamInited = true ∧ s.sourceExhausted = true ∧
        s.alSrcState ≠ ALSourceState.PLAYING) →
       s.checkStopped = { s.stopStream with state := StreamState.Stopped }) ∧
    (¬ (s.state = StreamState.Playing ∧ s.streamInited = true ∧ s.sourceExhausted = true ∧
         s.alSrcState ≠ ALSourceState.PLAYING) →
       s.checkStopped = s) := by
  by_cases h1 : s.state = StreamState.Playing <;>
    cases h2 : s.streamInited <;>
      cases h3 : s.sourceExhausted <;>
        by_cases h4 : s.alSrcState = ALSourceState.PLAYING <;>
          simp [ALStream.checkStopped, h1, h2, h3, h4]

/-- C3 witness: the transition fires on a Playing stream with both flags set
and a STOPPED sink, and a Playing stream that merely underran is left
unchanged. -/
theorem claim_C3_witness :
    drainedStream.checkStopped = { drainedStream.stopStream with state := StreamState.Stopped } ∧
    underrunStream.checkStopped = underrunStream :=
  ⟨(claim_C3 drainedStream).2.1 (by refine ⟨rfl, rfl, rfl, ?_⟩; decide),
   (claim_C3 underrunStream).2.2 (by simp [underrunStream, sampleStream])⟩

/-- C5: queryOffset returns 0 whenever the state is Closed or the source is
absent, and otherwise returns procFrames divided by the source sample rate
plus the sink seconds offset. -/
theorem claim_C5 (s : ALStream) :
    (s.state = StreamState.Closed ∨ s.source = none → s.queryOffset = 0) ∧
    (∀ si, s.state ≠ StreamState.Closed → s.source = some si →
       s.queryOffset = (s.procFrames : ℚ) / (si.sampleRate : ℚ) + s.secOffset) := by
  constructor
  · intro h
    simp [ALStream.queryOffset, h]
  · intro si h1 h2
    simp [ALStream.queryOffset, ALStream.sampleRate, h1, h2]

/-- C5 witness: the zero branch on a Closed stream and the formula branch on
a Stopped stream holding a 44100 Hz source. -/
theorem claim_C5_witness :
    ALStream.queryOffset { sampleStream with state := StreamState.Closed } = 0 ∧
    ALStream.queryOffset { sampleStream with procFrames := 22050, secOffset := 1/4 } =
      (22050 : ℚ) / (44100 : ℚ) + 1/4 :=
  ⟨(claim_C5 { sampleStream with state := StreamState.Closed }).1 (Or.inl rfl),
   (claim_C5 { sampleStream with procFrames := 22050, secOffset := 1/4 }).2
      { sampleRate := 44100, loopStartFrames := 0 } (by decide) rfl⟩

/-- C4: play is a no-op when the source is absent, when the state is Closed,
or when the state (after the checkStopped self-healing transition that play
performs first) is Playing; from Stopped it starts a new sweep recording
startOffset and presetting procFrames to offset times the sample rate (2.5
at 44100 Hz gives 110250); from Paused it resumes; a non-no-op call leaves
the state Playing. -/
theorem claim_C4 (s : ALStream) (off : ℚ) :
    (s.source = none → s.play off = s) ∧
    (s.state = StreamState.Closed → s.play off = s) ∧
    (s.source ≠ none → s.checkStopped.state = StreamState.Playing → s.play off = s) ∧
    (s.source ≠ none → s.checkStopped.state = StreamState.Stopped →
       (s.play off).startOffset = off ∧
       (s.play off).procFrames = ratTrunc (off * (s.sampleRate : ℚ)) ∧
       (s.play off).state = StreamState.Playing) ∧
    (s.source ≠ none → s.checkStopped.state = StreamState.Paused →
       s.play off = { s.resumeStream with state := StreamState.Playing }) ∧
    ratTrunc ((5/2 : ℚ) * (44100 : ℚ)) = 110250 := by
  refine ⟨?_, ?_, ?_, ?_, ?_, ?_⟩
  · intro h
    simp [ALStream.play, h]
  · intro h
    cases hsrc : s.source with
    | none => simp [ALStream.play, hsrc]
    | some v =>
      have hcs := checkStopped_of_ne_playing s (by simp [h])
      simp [ALStream.play, hsrc, hcs, h]
  · intro h1 h2
    have hcs : s.checkStopped = s := checkStopped_of_state_ne_stopped s (by simp [h2])
    rw [hcs] at h2
    cases hsrc : s.source with
    | none => exact absurd hsrc h1
    | some v => simp [ALStream.play, hsrc, hcs, h2]
  · intro h1 h2
    have hsr : s.checkStopped.sampleRate = s.sampleRate :=
      sampleRate_congr _ _ (checkStopped_source s)
    simp only [ALStream.play]
    rw [if_neg (by simp [Option.isNone_iff_eq_none, h1])]
    rw [h2]
    refine ⟨?_, ?_, ?_⟩ <;> simp [ALStream.startStream, hsr]
  · intro h1 h2
    have hcs : s.checkStopped = s := checkStopped_of_state_ne_stopped s (by simp [h2])
    rw [hcs] at h2
    cases hsrc : s.source with
    | none => exact absurd hsrc h1
    | some v => simp [ALStream.play, hsrc, hcs, h2]
  · norm_num [ratTrunc]

/-- C4 witness: play 2.5 on a Stopped stream with a 44100 Hz source records
startOffset 2.5, presets procFrames, and moves to Playing. -/
theorem claim_C4_witness :
    (sampleStream.play (5/2)).startOffset = 5/2 ∧
    (sampleStream.play (5/2)).procFrames = ratTrunc ((5/2) * (sampleStream.sampleRate : ℚ)) ∧
    (sampleStream.play (5/2)).state = StreamState.Playing :=
  (claim_C4 sampleStream (5/2)).2.2.2.1 (by decide) (by decide)

/-- C10: from Paused with a source present, play only resumes: the result is
resumeStream plus the Playing state, startOffset and procFrames are
untouched, and the offset argument is ignored (two different offsets give
the same result), so playback continues at the paused position. -/
theorem claim_C10 (s : ALStream) (off off2 : ℚ) :
    s.state = StreamState.Paused → s.source ≠ none →
      (s.play off = { s.resumeStream with state := StreamState.Playing } ∧
       (s.play off).startOffset = s.startOffset ∧
       (s.play off).procFrames = s.procFrames ∧
       s.play off = s.play off2) := by
  intro h1 h2
  have hcs : s.checkStopped = s := checkStopped_of_ne_playing s (by simp [h1])
  have hmain : ∀ o : ℚ, s.play o = { s.resumeStream with state := StreamState.Playing } := by
    intro o
    cases hsrc : s.source with
    | none => exact absurd hsrc h2
    | some v => simp [ALStream.play, hsrc, hcs, h1]
  have hre : s.resumeStream.startOffset = s.startOffset ∧
      s.resumeStream.procFrames = s.procFrames := by
    rw [ALStream.resumeStream]
    split <;> exact ⟨rfl, rfl⟩
  refine ⟨hmain off, ?_, ?_, (hmain off).trans (hmain off2).symm⟩
  · rw [hmain off]
    exact hre.1
  · rw [hmain off]
    exact hre.2

/-- C10 witness: the theorem applied to a concrete Paused stream at two
different offsets. -/
theorem claim_C10_witness :
    pausedStream.play 99 = { pausedStream.resumeStream with state := StreamState.Playing } ∧
    (pausedStream.play 99).startOffset = pausedStream.startOffset ∧
    (pausedStream.play 99).procFrames = pausedStream.procFrames ∧
    pausedStream.play 99 = pausedStream.play 7 :=
  claim_C10 pausedStream 99 7 rfl (by decide)

/-- C1 counterexample: open on a found file whose decoder setup produces no
source returns normally and leaves the stream in state Stopped, not Closed
as the claim states. -/
theorem claim_C1_counterexample :
    (sampleStream.openOp (FSOutcome.ok none)).toOption.map ALStream.state
        = some StreamState.Stopped ∧
    (sampleStream.openOp (FSOutcome.ok none)).toOption.map ALStream.state
        ≠ some StreamState.Closed := by
  constructor
  · norm_num [sampleStream, ALStream.openOp, ALStream.openSource, ALStream.close,
      ALStream.checkStopped, ALStream.closeSource, Except.toOption]
  · norm_num [sampleStream, ALStream.openOp, ALStream.openSource, ALStream.close,
      ALStream.checkStopped, ALStream.closeSource, Except.toOption]
    decide

/-- C1 (amended): if open finds the file but decoding setup returns no
source, the previous stream is closed, a diagnostic is logged, the source
is absent, and the stream ends in state Stopped (not Closed); a subsequent
play is still a silent no-op because the source is absent. -/
theorem claim_C1 (s : ALStream) (off : ℚ) :
    s.openOp (FSOutcome.ok none) =
      Except.ok { s.close with source := none, needsRewind := false,
                               debugLog := s.close.debugLog + 1,
                               state := StreamState.Stopped } ∧
    ALStream.play { s.close with source := none, needsRewind := false,
                                 debugLog := s.close.debugLog + 1,
                                 state := StreamState.Stopped } off =
      { s.close with source := none, needsRewind := false,
                     debugLog := s.close.debugLog + 1,
                     state := StreamState.Stopped } := by
  constructor
  · simp [ALStream.openOp, ALStream.openSource]
  · simp [ALStream.play]

/-- C8: open with a nonexistent file (NoFileError) re-raises and leaves the
stream exactly as it was; an I/O-level failure on a found file closes the
previous stream (state becomes Closed) and re-raises. -/
theorem claim_C8 (s : ALStream) (t : ExnType) :
    (s.openOp (FSOutcome.throwErr ExnType.NoFileError) =
       Except.error (ExnType.NoFileError, s)) ∧
    (t ≠ ExnType.NoFileError →
       s.openOp (FSOutcome.throwErr t) = Except.error (t, s.close) ∧
       s.close.state = StreamState.Closed) := by
  constructor
  · simp [ALStream.openOp, ALStream.openSource]
  · intro h
    constructor
    · simp [ALStream.openOp, ALStream.openSource, h]
    · simp only [ALStream.close]
      split <;> simp_all

/-- C8 witness: the I/O-failure branch applied to a concrete stream with a
PHYSFS error. -/
theorem claim_C8_witness :
    sampleStream.openOp (FSOutcome.throwErr ExnType.PHYSFSError) =
      Except.error (ExnType.PHYSFSError, sampleStream.close) ∧
    sampleStream.close.state = StreamState.Closed :=
  (claim_C8 sampleStream ExnType.PHYSFSError).2 (by decide)

/-- C6: for each successfully unqueued buffer, the refill-loop accounting
resets procFrames to loopStartFrames and clears lastBuf when the buffer is
the marked lastBuf, and otherwise adds (size / (bits / 8)) / channels
frames computed from that buffer, skipping the increment and both divisions
entirely when bits or channels is zero. -/
theorem claim_C6 (md : ProdModel) (buf : Nat) (st : ProdState) :
    (buf = st.lastBuf →
       unqueueAccount md buf st =
         { st with procFrames := md.loopStartFrames, lastBuf := 0 }) ∧
    (buf ≠ st.lastBuf → (md.attrs buf).bits ≠ 0 → (md.attrs buf).chan ≠ 0 →
       unqueueAccount md buf st =
         { st with procFrames := st.procFrames +
             ((((md.attrs buf).size / ((md.attrs buf).bits / 8)) / (md.attrs buf).chan : Nat) : Int) }) ∧
    (buf ≠ st.lastBuf → ((md.attrs buf).bits = 0 ∨ (md.attrs buf).chan = 0) →
       unqueueAccount md buf st = st) := by
  refine ⟨?_, ?_, ?_⟩
  · intro h
    simp [unqueueAccount, h]
  · intro h1 h2 h3
    simp [unqueueAccount, h1, h2, h3]
  · intro h1 h2
    rcases h2 with h2 | h2 <;> simp [unqueueAccount, h1, h2]

/-- C6 witness: the theorem applied to a concrete state unqueuing the marked
buffer, an unmarked 16-bit stereo buffer of 3528 bytes (882 frames), and an
unmarked buffer reporting zero bits. -/
theorem claim_C6_witness :
    unqueueAccount sampleProdModel 7 sampleProdState =
      { sampleProdState with procFrames := 5, lastBuf := 0 } ∧
    unqueueAccount sampleProdModel 2 sampleProdState =
      { sampleProdState with procFrames := 1882 } ∧
    unqueueAccount zeroBitsModel 2 sampleProdState = sampleProdState :=
  ⟨(claim_C6 sampleProdModel 7 sampleProdState).1 rfl,
   (claim_C6 sampleProdModel 2 sampleProdState).2.1 (by decide) (by decide) (by decide),
   (claim_C6 zeroBitsModel 2 sampleProdState).2.2 (by decide) (Or.inl rfl)⟩

/-- C9: tryRead reads the first four bytes and seeks back to 0; on the
"OggS" signature it follows the Ogg/Vorbis constructor; on "MThd" it
initializes the MIDI global state and follows the MIDI constructor when a
synthesizer is available, falling through to the generic constructor
otherwise; every other signature follows the generic constructor with the
extension hint and fixed buffer size; whenever the chosen constructor
throws, the message is captured and no source is produced (followsCtor). -/
theorem claim_C9 (bytes : List UInt8) (ext : String) (haveFluid : Bool)
    (streamBufSize : Nat) (vorbisCtor midiCtor : Except String SourceInfo)
    (sdlCtor : String → Nat → Except String SourceInfo) :
    (tryRead bytes ext haveFluid streamBufSize vorbisCtor midiCtor sdlCtor).sigRead
        = bytes.take 4 ∧
    (tryRead bytes ext haveFluid streamBufSize vorbisCtor midiCtor sdlCtor).posBeforeCtor
        = 0 ∧
    (bytes.take 4 = oggSig →
       followsCtor (tryRead bytes ext haveFluid streamBufSize vorbisCtor midiCtor sdlCtor)
         vorbisCtor ∧
       (tryRead bytes ext haveFluid streamBufSize vorbisCtor midiCtor sdlCtor).midiInited
         = false) ∧
    (bytes.take 4 = midiSig →
       (tryRead bytes ext haveFluid streamBufSize vorbisCtor midiCtor sdlCtor).midiInited
         = true ∧
       (haveFluid = true →
          followsCtor (tryRead bytes ext haveFluid streamBufSize vorbisCtor midiCtor sdlCtor)
            midiCtor) ∧
       (haveFluid = false →
          followsCtor (tryRead bytes ext haveFluid streamBufSize vorbisCtor midiCtor sdlCtor)
            (sdlCtor ext streamBufSize))) ∧
    (bytes.take 4 ≠ oggSig → bytes.take 4 ≠ midiSig →
       (tryRead bytes ext haveFluid streamBufSize vorbisCtor midiCtor sdlCtor).midiInited
         = false ∧
       followsCtor (tryRead bytes ext haveFluid streamBufSize vorbisCtor midiCtor sdlCtor)
         (sdlCtor ext streamBufSize)) := by
  refine ⟨?_, ?_, ?_, ?_, ?_⟩
  · simp only [tryRead]
    repeat' split
    all_goals rfl
  · simp only [tryRead]
    repeat' split
    all_goals rfl
  · intro h
    cases hv : vorbisCtor <;> simp [tryRead, followsCtor, h, hv]
  · intro h
    have hmo : (midiSig = oggSig) = False := by
      simp only [eq_iff_iff, iff_false]
      decide
    cases hf : haveFluid <;> cases hm : midiCtor <;>
      cases hs : sdlCtor ext streamBufSize <;>
        simp [tryRead, followsCtor, h, hmo, hf, hm, hs]
  · intro h1 h2
    cases hs : sdlCtor ext streamBufSize <;>
      simp [tryRead, followsCtor, h1, h2, hs]

/-- C9 witness: an Ogg-signature file follows the Vorbis constructor, and a
MIDI-signature file without a synthesizer initializes the MIDI state and
falls through to the generic constructor. -/
theorem claim_C9_witness :
    followsCtor (tryRead oggSig "ogg" false 32768 okVorbis badMidi sdlFallback) okVorbis ∧
    (tryRead midiSig "mid" false 32768 okVorbis badMidi sdlFallback).midiInited = true ∧
    followsCtor (tryRead midiSig "mid" false 32768 okVorbis badMidi sdlFallback)
      (sdlFallback "mid" 32768) :=
  ⟨((claim_C9 oggSig "ogg" false 32768 okVorbis badMidi sdlFallback).2.2.1 (by decide)).1,
   ((claim_C9 midiSig "mid" false 32768 okVorbis badMidi sdlFallback).2.2.2.1 (by decide)).1,
   ((claim_C9 midiSig "mid" false 32768 okVorbis badMidi sdlFallback).2.2.2.1 (by decide)).2.2 rfl⟩

/-
  Lemmas on producer traces.
-/

theorem exhaustAfterFill_append (a : List PEvent) :
    ∀ (p : Option SourceStatus) (b : List PEvent),
      exhaustAfterFill p (a ++ b) =
        (exhaustAfterFill p a && exhaustAfterFill (lastFill p a) b) := by
  induction a with
  | nil =>
      intro p b
      simp [exhaustAfterFill, lastFill]
  | cons e rest ih =>
      intro p b
      cases e <;> simp [exhaustAfterFill, lastFill, ih, Bool.and_assoc]

theorem fillLoop_good (env : ProdEnv) (bufs : List Nat) :
    ∀ (fb : Bool) (st : ProdState) (p : Option SourceStatus),
      exhaustAfterFill p (fillLoop env bufs fb st).1 = true := by
  induction bufs with
  | nil =>
      intro fb st p
      rfl
  | cons buf rest ih =>
      intro fb st p
      simp only [fillLoop]
      split_ifs <;> simp_all [exhaustAfterFill, ih]

theorem refillLoop_good (env : ProdEnv) (md : ProdModel) (n : Nat) :
    ∀ (st : ProdState) (p : Option SourceStatus),
      exhaustAfterFill p (refillLoop env md n st).1 = true := by
  induction n with
  | zero =>
      intro st p
      rfl
  | succ n ih =>
      intro st p
      simp only [refillLoop]
      split_ifs <;> simp_all [exhaustAfterFill, ih]

theorem refillOuter_good (env : ProdEnv) (md : ProdModel) (fuel : Nat) :
    ∀ (st : ProdState) (p : Option SourceStatus),
      exhaustAfterFill p (refillOuter env md fuel st).1 = true := by
  induction fuel with
  | zero =>
      intro st p
      rfl
  | succ fuel ih =>
      intro st p
      simp only [refillOuter]
      split_ifs <;> simp [exhaustAfterFill_append, refillLoop_good, ih]

theorem streamData_good (env : ProdEnv) (md : ProdModel) (off : ℚ) (fuel : Nat)
    (st : ProdState) (p : Option SourceStatus) :
    exhaustAfterFill p (streamData env md off fuel st).1 = true := by
  simp only [streamData]
  split
  · rfl
  · split <;>
      simp [exhaustAfterFill, exhaustAfterFill_append, fillLoop_good, refillOuter_good]

theorem fillLoop_errorRet_exhausted (env : ProdEnv) (bufs : List Nat) :
    ∀ (fb : Bool) (st : ProdState),
      (fillLoop env bufs fb st).2.2 = P1Out.errorRet →
        (fillLoop env bufs fb st).2.1.exhausted = st.exhausted := by
  induction bufs with
  | nil =>
      intro fb st h
      simp [fillLoop] at h
  | cons buf rest ih =>
      intro fb st
      simp only [fillLoop]
      split_ifs <;> intro h <;> simp_all [readTerm, readFill]

theorem endsWithErrorFill_ne_nil (tr : List PEvent) (h : endsWithErrorFill tr = true) :
    tr ≠ [] := by
  intro hnil
  subst hnil
  simp [endsWithErrorFill] at h

theorem endsWithErrorFill_cons (e : PEvent) (tr : List PEvent) (h : tr ≠ []) :
    endsWithErrorFill (e :: tr) = endsWithErrorFill tr := by
  cases tr with
  | nil => exact absurd rfl h
  | cons t ts => simp [endsWithErrorFill, List.getLast?_cons_cons]

theorem fillLoop_endsWithError (env : ProdEnv) (bufs : List Nat) :
    ∀ (fb : Bool) (st : ProdState),
      (fillLoop env bufs fb st).2.2 = P1Out.errorRet →
        endsWithErrorFill (fillLoop env bufs fb st).1 = true := by
  induction bufs with
  | nil =>
      intro fb st h
      simp [fillLoop] at h
  | cons buf rest ih =>
      intro fb st
      simp only [fillLoop]
      split_ifs <;> intro h <;>
        first
          | (simp_all [endsWithErrorFill]
             done)
          | (have h4 := ih false _ h
             have hne := endsWithErrorFill_ne_nil _ h4
             simp_all [endsWithErrorFill_cons]
             done)

/-- C7 (invariant I5): in every producer run, over any oracle environment,
every setExhausted event in the run trace follows a fill whose status was
Error or EndOfStream with no other fill in between; and when phase 1 ends
on a decoder Error, the producer returns with sourceExhausted exactly as it
was (it does not set it), the trace of the initial fill loop ending in the
failing fill. -/
theorem claim_C7 (env : ProdEnv) (md : ProdModel) (off : ℚ) (fuel : Nat)
    (st : ProdState) (p : Option SourceStatus) :
    exhaustAfterFill p (streamData env md off fuel st).1 = true ∧
    ((streamData env md off fuel st).2.2 = P1Out.errorRet →
       (streamData env md off fuel st).2.1.exhausted = st.exhausted ∧
       endsWithErrorFill (fillLoop env md.bufs true (readTerm env st).2).1 = true) := by
  constructor
  · exact streamData_good env md off fuel st p
  · simp only [streamData]
    split
    · intro h
      simp at h
    · split
      · intro h
        simp at h
      · intro h
        simp at h
      · rename_i hm
        intro _
        constructor
        · rw [fillLoop_errorRet_exhausted env md.bufs true _ hm]
          simp [readTerm]
        · exact fillLoop_endsWithError env md.bufs true _ hm

/-- C7 witness: an environment whose decoder fails on the very first fill
gives a producer run that returns from phase 1 leaving sourceExhausted as
it was, the initial fill loop trace ending in the failing fill. -/
theorem claim_C7_witness :
    (streamData errorEnv sampleProdModel 0 3 sampleProdState).2.1.exhausted
        = sampleProdState.exhausted ∧
    endsWithErrorFill
        (fillLoop errorEnv sampleProdModel.bufs true
          (readTerm errorEnv sampleProdState).2).1 = true :=
  (claim_C7 errorEnv sampleProdModel 0 3 sampleProdState none).2 rfl
